import Mathlib

/-!
Verification of charts/version-sync/scripts/update-uptime-kuma-version.py.

The script is a sequential glue program talking to two external services:
plain HTTP GET for version strings, and a Socket.io client for the Uptime
Kuma dashboard.  We embed each Python function as a pure Lean function.
The outcome of each external interaction (HTTP response, Socket.io
callback invocation, cached event data, raised exception) is an explicit
input of type `...Outcome` / `...Env`; the function body then mirrors the
Python control flow over those inputs.  Where a claim is about which
client calls a function issues, the function also returns a trace of the
calls it makes, in order.

Conventions for the embedding of Python values:
* a value obtained with `d.get(k)` (default None) is an `Option`;
  a value obtained with `d.get(k, '')` or `d.get(k, [])` carries the
  default and is a plain `String` / `List`;
* Python truthiness of an `int` is `≠ 0`, of a `str` is `≠ ""`, of a
  list is `≠ []`, of an `Option` is `isSome` (plus the inner truthiness
  where the source checks `if not x` on a value that may be 0 or "");
* machine integers do not overflow in Python, so ids are `Int`.
-/

namespace VersionSync

/-- Python `s.startswith(pre)`: character-level prefix test. -/
def pyStartswith (s pre : String) : Bool :=
  pre.data.isPrefixOf s.data

/-- ASCII whitespace recognised by Python `str.strip()`. -/
def isSpaceChar (c : Char) : Bool :=
  c == ' ' || c == '\t' || c == '\n' || c == '\r' || c == '\x0b' || c == '\x0c'

/-- Python `s.strip()`: drop leading and trailing whitespace. -/
def pyStrip (s : String) : String :=
  String.mk (((s.data.dropWhile isSpaceChar).reverse.dropWhile isSpaceChar).reverse)

/-- Python `a or b` on optional integers: `a` if it is a truthy int
(present and nonzero), otherwise `b` as-is. -/
def pyOr (a b : Option Int) : Option Int :=
  match a with
  | some x => if x = 0 then b else some x
  | none => b

/-- A tag object from the dashboard: `tag.get('id')` may be absent,
`tag.get('name', '')` defaults to the empty string. -/
structure Tag where
  id : Option Int
  name : String
deriving DecidableEq

/-- An entry of a monitor's `tags` list: either a dict (with optional
`tag_id` and `id` fields and a defaulted `name`) or a bare integer id. -/
inductive MonitorTag where
  | obj (tag_id : Option Int) (id : Option Int) (name : String)
  | rawId (i : Int)
deriving DecidableEq

/-- A monitor record: `monitor.get('name', '')` and `monitor.get('tags', [])`. -/
structure Monitor where
  name : String
  tags : List MonitorTag
deriving DecidableEq

/-! ## get_version (script lines 38-47) -/

/-- Outcome of `requests.get(version_endpoint, ...)`: either a response
with a status code and body, or a raised `RequestException`. -/
inductive HttpOutcome where
  | response (status : Nat) (body : String)
  | exn
deriving DecidableEq

/-- Embedding of `get_version`: `raise_for_status` raises (an
`HTTPError`, a `RequestException`) exactly for status codes in
[400, 600); the handler returns `None`; otherwise the stripped body is
returned. -/
def get_version (o : HttpOutcome) : Option String :=
  match o with
  | HttpOutcome.response status body =>
    if 400 ≤ status ∧ status < 600 then none
    else some (pyStrip body)
  | HttpOutcome.exn => none

/-! ## UptimeKumaClient.get_tags (script lines 308-377) -/

/-- State of `self.event_data['tagList']`: key absent, present with a
list value, or present with a non-list value. -/
inductive CacheState where
  | absent
  | listVal (l : List Tag)
  | nonList
deriving DecidableEq

/-- Shape of the value passed to `tag_list_callback`: a list, a dict
with a `tags` key, a dict with a truthy `ok` and no `tags`, some other
dict, or a non-list non-dict value. -/
inductive TagsCbResp where
  | listResp (l : List Tag)
  | dictTags (l : List Tag)
  | dictOkTrue
  | dictOther
  | nonDict
deriving DecidableEq

/-- Outcome of the emit-and-wait in `get_tags`: the callback ran (with
the cache state observed afterwards), the 5s wait elapsed with no
callback, or an exception was raised inside the `try` block. -/
inductive TagsOutcome where
  | responded (r : TagsCbResp) (cacheAfter : CacheState)
  | timeout
  | exn
deriving DecidableEq

/-- Environment of one `get_tags` call. -/
structure TagsEnv where
  cacheBefore : CacheState
  outcome : TagsOutcome
deriving DecidableEq

/-- Embedding of `UptimeKumaClient.get_tags`.  Unauthenticated calls
return `none` (Python `None`); a cached `tagList` short-circuits unless
`force_refresh`; a timeout or an exception yields `some []`; after a
response, a longer cached list wins over the callback data. -/
def get_tags (authenticated : Bool) (force_refresh : Bool) (env : TagsEnv) :
    Option (List Tag) :=
  if authenticated = false then none
  else if force_refresh = false ∧ env.cacheBefore ≠ CacheState.absent then
    match env.cacheBefore with
    | CacheState.listVal l => some l
    | _ => some []
  else
    match env.outcome with
    | TagsOutcome.timeout => some []
    | TagsOutcome.exn => some []
    | TagsOutcome.responded r cacheAfter =>
      let response_data : List Tag :=
        match r with
        | TagsCbResp.listResp l => l
        | TagsCbResp.dictTags l => l
        | TagsCbResp.dictOkTrue => []
        | TagsCbResp.dictOther => []
        | TagsCbResp.nonDict => []
      match cacheAfter with
      | CacheState.listVal c =>
        if response_data.length < c.length then some c else some response_data
      | _ => some response_data

/-! ## UptimeKumaClient.add_tag (script lines 379-427) -/

/-- Outcome of the `addTag` emit: callback ran (recording whether the
response was a dict, whether `ok` was truthy, and the optional `tag`
field), timeout, or exception. -/
inductive AddTagOutcome where
  | responded (isDict : Bool) (ok : Bool) (tag : Option Tag)
  | timeout
  | exn
deriving DecidableEq

/-- Embedding of `UptimeKumaClient.add_tag`: only a dict response with
truthy `ok` yields `response.get('tag')`; everything else is `None`. -/
def add_tag (authenticated : Bool) (o : AddTagOutcome) : Option Tag :=
  if authenticated = false then none
  else
    match o with
    | AddTagOutcome.responded isDict ok tag => if isDict && ok then tag else none
    | AddTagOutcome.timeout => none
    | AddTagOutcome.exn => none

/-! ## UptimeKumaClient.add_monitor_tag (script lines 481-540) -/

/-- Outcome of the `addMonitorTag` emit. -/
inductive AddMonOutcome where
  | responded (isDict : Bool) (ok : Bool)
  | timeout
  | exn
deriving DecidableEq

/-- Embedding of `UptimeKumaClient.add_monitor_tag`: true exactly when a
dict response with truthy `ok` arrived; timeout and exception are
failures. -/
def add_monitor_tag (authenticated : Bool) (o : AddMonOutcome) : Bool :=
  if authenticated = false then false
  else
    match o with
    | AddMonOutcome.responded isDict ok => isDict && ok
    | AddMonOutcome.timeout => false
    | AddMonOutcome.exn => false

/-! ## UptimeKumaClient.delete_monitor_tag (script lines 542-576) -/

/-- Outcome of the `deleteMonitorTag` emit: `responded ok` means the
callback ran and `ok` records whether the response was a dict with a
truthy `ok` field (only that combination sets `response_success`). -/
inductive DeleteOutcome where
  | responded (ok : Bool)
  | timeout
  | exn
deriving DecidableEq

/-- Embedding of `UptimeKumaClient.delete_monitor_tag`: the source
returns `response_success or not response_received` (a timeout counts
as success) and its exception handler returns True. -/
def delete_monitor_tag (authenticated : Bool) (o : DeleteOutcome) : Bool :=
  if authenticated = false then false
  else
    match o with
    | DeleteOutcome.responded ok => ok
    | DeleteOutcome.timeout => true
    | DeleteOutcome.exn => true

/-! ## get_or_create_tag (script lines 584-627) -/

/-- Client calls observable from `get_or_create_tag`. -/
inductive GocCall where
  | getTagsCall (force_refresh : Bool)
  | addTagCall (name : String)
deriving DecidableEq

/-- Environment of one `get_or_create_tag` call: the client's
authentication state and the environments of the client calls it may
make, in program order. -/
structure GocEnv where
  authenticated : Bool
  tags1 : TagsEnv
  addOutcome : AddTagOutcome
  tags2 : TagsEnv
deriving DecidableEq

/-- Embedding of `get_or_create_tag`, returning the result and the trace
of client calls.  A `None` tag list is replaced by `[]`; the first tag
whose `name` equals `tag_name` is returned without creating anything;
otherwise `add_tag` runs, and on success the tag list is re-fetched only
to print a verification warning (the re-fetch does not change the
result). -/
def get_or_create_tag (env : GocEnv) (tag_name : String) :
    Option Tag × List GocCall :=
  let tags := (get_tags env.authenticated false env.tags1).getD []
  match tags.find? (fun t => t.name == tag_name) with
  | some t => (some t, [GocCall.getTagsCall false])
  | none =>
    match add_tag env.authenticated env.addOutcome with
    | some new_tag =>
      let _updated_tags := get_tags env.authenticated true env.tags2
      (some new_tag,
        [GocCall.getTagsCall false, GocCall.addTagCall tag_name,
          GocCall.getTagsCall true])
    | none => (none, [GocCall.getTagsCall false, GocCall.addTagCall tag_name])

/-! ## update_monitor_tags (script lines 630-749)

`client.get_monitors()` returns the monitor list keyed by monitor id
(Python keys are the decimal string forms of the ids; the source
round-trips them through `str`/`int`, which we elide by keying on the
`Int` ids directly).  Its two results inside `update_monitor_tags` are
the `monitors1` / `monitors2` fields of the environment. -/

/-- Client calls observable from `update_monitor_tags` that touch the
monitor's tag set, in order of emission.  The `tag_id` of a deletion is
optional because a dict entry of `monitor['tags']` may lack both
`tag_id` and `id`, in which case Python passes `None`. -/
inductive UmtCall where
  | deleteMonitorTagCall (tag_id : Option Int) (monitor_id : Int)
  | addMonitorTagCall (tag_id : Int) (monitor_id : Int)
deriving DecidableEq

/-- Environment of one `update_monitor_tags` call, in program order:
first `get_monitors`, the nested `get_or_create_tag`, the
`get_tags(force_refresh=True)` used to build the id-to-tag map, the
`addMonitorTag` emit, and the verification `get_monitors`. -/
structure UmtEnv where
  authenticated : Bool
  monitors1 : Option (List (Int × Monitor))
  goc : GocEnv
  tags3 : TagsEnv
  addMon : AddMonOutcome
  monitors2 : Option (List (Int × Monitor))

/-- The `tag_map` built at script lines 666-674: tags with a truthy id,
inserted in list order (later entries overwrite), then the freshly
obtained version tag under its id. -/
def buildTagMap (all_tags : List Tag) (vtag : Tag) (vid : Int) :
    List (Int × Tag) :=
  (all_tags.filterMap fun t =>
    match t.id with
    | some k => if k = 0 then none else some (k, t)
    | none => none) ++ [(vid, vtag)]

/-- Lookup in an insertion-ordered map where later bindings shadow
earlier ones (Python dict assignment). -/
def lookupLast (m : List (Int × Tag)) (k : Int) : Option Tag :=
  (m.reverse.find? fun p => p.1 == k).map Prod.snd

/-- The id the script derives from an entry of `monitor['tags']`:
`tag.get('tag_id') or tag.get('id')` for a dict, the value itself for a
bare id. -/
def monitorTagId : MonitorTag → Option Int
  | MonitorTag.obj tag_id id _ => pyOr tag_id id
  | MonitorTag.rawId i => some i

/-- The name the script derives from an entry of `monitor['tags']`:
`tag.get('name', '')` for a dict, `tag_map.get(tag_id, {}).get('name', '')`
for a bare id. -/
def monitorTagName (tag_map : List (Int × Tag)) : MonitorTag → String
  | MonitorTag.obj _ _ name => name
  | MonitorTag.rawId i =>
    match lookupLast tag_map i with
    | some t => t.name
    | none => ""

/-- The body of the loop at script lines 677-690: an entry of the
monitor's tag list is marked for removal when its resolved name is
truthy, starts with the tag prefix followed by a dash, and its resolved
id differs from the new version tag's id. -/
def staleTagPick (tag_map : List (Int × Tag)) (tagPfx : String) (vid : Int)
    (t : MonitorTag) : Option (Option Int × String) :=
  let tid := monitorTagId t
  let tname := monitorTagName tag_map t
  if tname ≠ "" ∧ pyStartswith tname (tagPfx ++ "-") = true ∧ tid ≠ some vid
  then some (tid, tname) else none

/-- Embedding of `update_monitor_tags`, returning the result and the
trace of `deleteMonitorTag` / `addMonitorTag` emissions.  Mirrors the
source: early False returns before any emission; stale version tags
(resolved name truthy, starts with the prefix followed by a dash, id
differing from the new tag's id) collected in order and deleted, their
results ignored; then the new tag is added; after a successful add every
verification branch returns True (the `tag_found` check only selects
which message is printed). -/
def update_monitor_tags (env : UmtEnv) (monitor_id : Int)
    (monitor_name version tagPfx : String) : Bool × List UmtCall :=
  match env.monitors1 with
  | none => (false, [])
  | some monitors =>
    match List.lookup monitor_id monitors with
    | none => (false, [])
    | some monitor =>
      let version_tag_name := tagPfx ++ "-" ++ version
      match (get_or_create_tag env.goc version_tag_name).1 with
      | none => (false, [])
      | some version_tag_obj =>
        match version_tag_obj.id with
        | none => (false, [])
        | some version_tag_id =>
          if version_tag_id = 0 then (false, [])
          else
            let current_tags := monitor.tags
            let all_tags := get_tags env.authenticated true env.tags3
            let tag_map := buildTagMap (all_tags.getD []) version_tag_obj version_tag_id
            let tags_to_remove :=
              current_tags.filterMap (staleTagPick tag_map tagPfx version_tag_id)
            let deletes := tags_to_remove.map fun p =>
              UmtCall.deleteMonitorTagCall p.1 monitor_id
            let success := add_monitor_tag env.authenticated env.addMon
            let calls := deletes ++ [UmtCall.addMonitorTagCall version_tag_id monitor_id]
            if success = false then (false, calls)
            else
              match env.monitors2 with
              | none => (true, calls)
              | some updated_monitors =>
                match List.lookup monitor_id updated_monitors with
                | none => (true, calls)
                | some updated_monitor =>
                  let tag_found := updated_monitor.tags.any fun t =>
                    monitorTagId t == some version_tag_id ||
                      monitorTagName tag_map t == version_tag_name
                  if tag_found then (true, calls) else (true, calls)

/-! ## process_service (script lines 752-792) -/

/-- One entry of the parsed `SERVICES_CONFIG`, as read with
`service_config.get('monitorName', '')`, `.get('versionEndpoint', '')`
and `.get('tagPrefix', 'version')`. -/
structure ServiceConfig where
  monitorName : String := ""
  versionEndpoint : String := ""
  tagPfx : String := "version"
deriving DecidableEq

/-- Environment of one `process_service` call: the HTTP outcome of the
version fetch, the `get_monitors` result, and the environment of the
nested `update_monitor_tags`. -/
structure PsEnv where
  http : HttpOutcome
  monitors : Option (List (Int × Monitor))
  umt : UmtEnv

/-- Embedding of `process_service`.  Note the source treats a found
monitor id of 0 as "not found" (`if not monitor_id`). -/
def process_service (env : PsEnv) (cfg : ServiceConfig) : Bool :=
  if cfg.monitorName = "" ∨ cfg.versionEndpoint = "" then false
  else
    match get_version env.http with
    | none => false
    | some version =>
      if version = "" then false
      else
        match env.monitors with
        | none => false
        | some monitors =>
          match monitors.find? (fun p => p.2.name == cfg.monitorName) with
          | none => false
          | some (mid, _) =>
            if mid = 0 then false
            else (update_monitor_tags env.umt mid cfg.monitorName version cfg.tagPfx).1

/-! ## parse_services_config (script lines 795-815) and main (818-873) -/

/-- JSON values, the shape `json.loads` can produce. -/
inductive Json where
  | null
  | bool (b : Bool)
  | num (n : Int)
  | str (s : String)
  | arr (elems : List Json)
  | obj (fields : List (String × Json))

/-- Embedding of `parse_services_config`: the raw `SERVICES_CONFIG`
string together with the result of `json.loads` on it (`none` models a
raised `JSONDecodeError`).  Empty string, parse failure, a non-array
value and an empty array all yield the empty list. -/
def parse_services_config (config : String) (parsed : Option Json) :
    List Json :=
  if config = "" then []
  else
    match parsed with
    | none => []
    | some (Json.arr elems) => if elems.length = 0 then [] else elems
    | some _ => []

/-- Externally visible steps of `main`, in order: the `client.connect()`
call, the `client.login(...)` call, and each `process_service` call with
its service config. -/
inductive MainEvent where
  | connect
  | login
  | processService (cfg : Json)

/-- Whether a main event is a `process_service` invocation. -/
def MainEvent.isProcessService : MainEvent → Bool
  | MainEvent.processService _ => true
  | _ => false

/-- Environment of one run of `main`: the relevant environment
variables, the `json.loads` result on `SERVICES_CONFIG`, the outcomes of
`client.connect()` and `client.login(...)`, and the result of
`process_service` on each service config (the per-call client state is
folded into this function, as `process_service` is deterministic in its
own environment). -/
structure MainEnv where
  apiToken : String
  password : String
  servicesConfig : String
  parsed : Option Json
  connectOk : Bool
  loginOk : Bool
  serviceResult : Json → Bool

/-- Embedding of `main`: returns the process exit code and the trace of
`MainEvent`s.  Missing credentials, an empty parse result, a failed
connect and a failed login each exit 1 at once; otherwise every service
is processed, `successful = sum(results)`, `failed = len(results) -
successful`, and the exit code is 1 exactly when `failed > 0`. -/
def main (env : MainEnv) : Nat × List MainEvent :=
  if env.apiToken = "" ∧ env.password = "" then (1, [])
  else
    let services := parse_services_config env.servicesConfig env.parsed
    if services.isEmpty then (1, [])
    else
      if env.connectOk = false then (1, [MainEvent.connect])
      else if env.loginOk = false then (1, [MainEvent.connect, MainEvent.login])
      else
        let results := services.map env.serviceResult
        let successful := results.count true
        let failed := results.length - successful
        ((if 0 < failed then 1 else 0),
          [MainEvent.connect, MainEvent.login] ++
            services.map MainEvent.processService)

/-! ## Concrete fixtures used by witnesses -/

/-- A `get_or_create_tag` environment in which the tag list is empty and
`addTag` succeeds, creating tag 9 named `version-2.0`. -/
def wGoc : GocEnv :=
  ⟨true,
    ⟨CacheState.absent,
      TagsOutcome.responded (TagsCbResp.listResp []) CacheState.absent⟩,
    AddTagOutcome.responded true true (some ⟨some 9, "version-2.0"⟩),
    ⟨CacheState.absent, TagsOutcome.timeout⟩⟩

/-- A monitor carrying a stale dict version tag (id 3), a bare tag id 4
resolving to a stale version name through the tag map, and an unrelated
tag (id 5). -/
def wMonitor : Monitor :=
  ⟨"svc",
    [MonitorTag.obj (some 3) none "version-1.0", MonitorTag.rawId 4,
      MonitorTag.obj (some 5) none "other"]⟩

/-- A tag-list fetch answering with the single tag 4 named `version-0.9`. -/
def wTags3 : TagsEnv :=
  ⟨CacheState.absent,
    TagsOutcome.responded (TagsCbResp.listResp [⟨some 4, "version-0.9"⟩])
      CacheState.absent⟩

/-- An `update_monitor_tags` environment around `wMonitor` in which the
`addMonitorTag` emit succeeds and the verification fetch gets nothing. -/
def wUmt : UmtEnv :=
  ⟨true, some [(1, wMonitor)], wGoc, wTags3, AddMonOutcome.responded true true,
    none⟩

/-- A `main` environment in which everything succeeds for one service. -/
def wMainOk : MainEnv :=
  ⟨"tok", "", "[null]", some (Json.arr [Json.null]), true, true, fun _ => true⟩

/-- A `main` environment with two services, the first of which fails. -/
def wMainFail : MainEnv :=
  ⟨"tok", "", "[null,true]", some (Json.arr [Json.null, Json.bool true]), true,
    true, fun j => match j with | Json.null => false | _ => true⟩

/-- A `main` environment whose `SERVICES_CONFIG` is not valid JSON. -/
def wMainBad : MainEnv :=
  ⟨"tok", "", "not json", none, true, true, fun _ => true⟩

/-- A `main` environment whose `client.connect()` fails. -/
def wMainConnFail : MainEnv :=
  ⟨"tok", "", "[null]", some (Json.arr [Json.null]), false, true, fun _ => true⟩

/-! ## Helper lemmas -/

theorem string_data_empty : ("" : String).data = [] := rfl

theorem pyStartswith_ne_empty (s p : String)
    (h : pyStartswith s (p ++ "-") = true) : s ≠ "" := by
  intro he
  subst he
  rw [pyStartswith, String.data_append, List.isPrefixOf_iff_prefix] at h
  rw [string_data_empty] at h
  have hnil : p.data ++ ("-" : String).data = [] := List.prefix_nil.mp h
  simp at hnil

theorem length_sub_count_true (l : List Bool) :
    l.length - l.count true = l.count false := by
  induction l with
  | nil => rfl
  | cons b t ih =>
    have hle := List.count_le_length true t
    cases b <;> simp [List.count_cons] <;> omega

/-! ## Claim theorems -/

/-- C7. For every version endpoint whose HTTP GET succeeds with a
non-error status, `get_version` returns the response body with leading
and trailing whitespace stripped; on any request exception it returns
None. -/
theorem get_version_strips_on_success_none_on_exception :
    (∀ (status : Nat) (body : String), status < 400 →
      get_version (HttpOutcome.response status body) = some (pyStrip body)) ∧
    get_version HttpOutcome.exn = none := by
  constructor
  · intro status body h
    show (if 400 ≤ status ∧ status < 600 then none else some (pyStrip body)) =
      some (pyStrip body)
    rw [if_neg (by omega)]
  · rfl

/-- Witness for C7 at a concrete successful response. -/
theorem get_version_strips_witness :
    (200 : Nat) < 400 ∧
    get_version (HttpOutcome.response 200 " 1.2.3\n") = some (pyStrip " 1.2.3\n") ∧
    pyStrip " 1.2.3\n" = "1.2.3" :=
  ⟨by decide,
    get_version_strips_on_success_none_on_exception.1 200 " 1.2.3\n" (by decide),
    rfl⟩

/-- C8. `delete_monitor_tag` never reports failure on a non-responsive
or faulty server: it returns True when the wait loop times out with no
response, and returns True when an exception is raised, so its caller
cannot detect that the removal did not happen. -/
theorem delete_monitor_tag_true_on_timeout_and_exception :
    delete_monitor_tag true DeleteOutcome.timeout = true ∧
    delete_monitor_tag true DeleteOutcome.exn = true :=
  ⟨rfl, rfl⟩

/-- C10. `get_tags` does not distinguish an empty tag list from a failed
listing: with no cached tag list, a response timeout and an exception
both yield `some []` rather than `none`, and `get_or_create_tag` run on
such a result proceeds to emit `addTag` for the requested name. -/
theorem get_tags_empty_on_failure_and_tag_recreated
    (e1 : TagsEnv) (addO : AddTagOutcome) (t2 : TagsEnv) (tag_name : String)
    (hc : e1.cacheBefore = CacheState.absent)
    (ho : e1.outcome = TagsOutcome.timeout ∨ e1.outcome = TagsOutcome.exn) :
    get_tags true false e1 = some [] ∧
    GocCall.addTagCall tag_name ∈
      (get_or_create_tag ⟨true, e1, addO, t2⟩ tag_name).2 := by
  have hgt : get_tags true false e1 = some [] := by
    rcases ho with h | h <;> simp [get_tags, hc, h]
  refine ⟨hgt, ?_⟩
  simp only [get_or_create_tag, hgt, Option.getD_some, List.find?_nil]
  cases add_tag true addO <;> simp

/-- Witness for C10 at a concrete timed-out listing. -/
theorem get_tags_empty_on_failure_witness :
    (⟨CacheState.absent, TagsOutcome.timeout⟩ : TagsEnv).cacheBefore =
      CacheState.absent ∧
    get_tags true false ⟨CacheState.absent, TagsOutcome.timeout⟩ = some [] ∧
    GocCall.addTagCall "version-1.2.3" ∈
      (get_or_create_tag
        ⟨true, ⟨CacheState.absent, TagsOutcome.timeout⟩, AddTagOutcome.timeout,
          ⟨CacheState.absent, TagsOutcome.timeout⟩⟩ "version-1.2.3").2 :=
  ⟨rfl,
    (get_tags_empty_on_failure_and_tag_recreated
      ⟨CacheState.absent, TagsOutcome.timeout⟩ AddTagOutcome.timeout
      ⟨CacheState.absent, TagsOutcome.timeout⟩ "version-1.2.3" rfl (Or.inl rfl)).1,
    (get_tags_empty_on_failure_and_tag_recreated
      ⟨CacheState.absent, TagsOutcome.timeout⟩ AddTagOutcome.timeout
      ⟨CacheState.absent, TagsOutcome.timeout⟩ "version-1.2.3" rfl (Or.inl rfl)).2⟩

/-- C3. If the tag list returned by `get_tags` contains a tag whose name
equals the requested name, `get_or_create_tag` returns an existing tag
of that name from the list and never calls `add_tag`. -/
theorem existing_tag_reused_not_recreated
    (env : GocEnv) (tag_name : String) (t0 : Tag)
    (hmem : t0 ∈ (get_tags env.authenticated false env.tags1).getD [])
    (hname : t0.name = tag_name) :
    ∃ t, (get_or_create_tag env tag_name).1 = some t ∧
      t ∈ (get_tags env.authenticated false env.tags1).getD [] ∧
      t.name = tag_name ∧
      ∀ s, GocCall.addTagCall s ∉ (get_or_create_tag env tag_name).2 := by
  have hs : ((get_tags env.authenticated false env.tags1).getD []).find?
      (fun t => t.name == tag_name) |>.isSome := by
    rw [List.find?_isSome]
    exact ⟨t0, hmem, by simp [hname]⟩
  obtain ⟨t, ht⟩ := Option.isSome_iff_exists.mp hs
  have hteq : t.name = tag_name := by
    have := List.find?_some ht
    simpa using this
  refine ⟨t, ?_, List.mem_of_find?_eq_some ht, hteq, ?_⟩
  · simp only [get_or_create_tag, ht]
  · intro s
    simp only [get_or_create_tag, ht]
    simp

/-- Once `update_monitor_tags` reaches the tag-reconciliation phase
(monitor list fetched, monitor found, version tag obtained with a truthy
id), its value is exactly: result of the `addMonitorTag` emit, paired
with the deletions of all stale picks followed by the one addition. -/
theorem update_monitor_tags_eq (env : UmtEnv) (mid : Int)
    (mname version tagPfx : String) (ms : List (Int × Monitor)) (mon : Monitor)
    (vtag : Tag) (vid : Int)
    (hms : env.monitors1 = some ms)
    (hmon : List.lookup mid ms = some mon)
    (hgoc : (get_or_create_tag env.goc (tagPfx ++ "-" ++ version)).1 = some vtag)
    (hvid : vtag.id = some vid)
    (hvz : vid ≠ 0) :
    update_monitor_tags env mid mname version tagPfx =
      (add_monitor_tag env.authenticated env.addMon,
        (mon.tags.filterMap
          (staleTagPick
            (buildTagMap ((get_tags env.authenticated true env.tags3).getD [])
              vtag vid) tagPfx vid)).map
          (fun p => UmtCall.deleteMonitorTagCall p.1 mid) ++
          [UmtCall.addMonitorTagCall vid mid]) := by
  simp only [update_monitor_tags, hms, hmon, hgoc, hvid]
  rw [if_neg hvz]
  cases hadd : add_monitor_tag env.authenticated env.addMon with
  | false => simp
  | true =>
    cases env.monitors2 with
    | none => simp
    | some ums =>
      cases hl : List.lookup mid ums with
      | none => simp [hl]
      | some um => simp [hl, ite_self]

/-- C1. When `update_monitor_tags` reaches the tag-reconciliation phase,
every tag of the monitor's current tag list whose resolved name starts
with the configured tag prefix followed by a dash and whose id differs
from the new version tag's id is marked for removal, a
`deleteMonitorTag` is issued for each of them, and all of these
deletions precede the single `addMonitorTag` of the new version tag: a
stale version tag is replaced rather than a second one appended. -/
theorem stale_version_tags_removed_before_new_tag_added (env : UmtEnv)
    (mid : Int) (mname version tagPfx : String) (ms : List (Int × Monitor))
    (mon : Monitor) (vtag : Tag) (vid : Int)
    (hms : env.monitors1 = some ms)
    (hmon : List.lookup mid ms = some mon)
    (hgoc : (get_or_create_tag env.goc (tagPfx ++ "-" ++ version)).1 = some vtag)
    (hvid : vtag.id = some vid)
    (hvz : vid ≠ 0) :
    ∃ deletes,
      (update_monitor_tags env mid mname version tagPfx).2 =
        deletes ++ [UmtCall.addMonitorTagCall vid mid] ∧
      (∀ c ∈ deletes, ∃ tid, c = UmtCall.deleteMonitorTagCall tid mid) ∧
      (∀ t ∈ mon.tags,
        pyStartswith
          (monitorTagName
            (buildTagMap ((get_tags env.authenticated true env.tags3).getD [])
              vtag vid) t) (tagPfx ++ "-") = true →
        monitorTagId t ≠ some vid →
        UmtCall.deleteMonitorTagCall (monitorTagId t) mid ∈ deletes) := by
  have heq := update_monitor_tags_eq env mid mname version tagPfx ms mon vtag
    vid hms hmon hgoc hvid hvz
  refine ⟨(mon.tags.filterMap
      (staleTagPick
        (buildTagMap ((get_tags env.authenticated true env.tags3).getD [])
          vtag vid) tagPfx vid)).map
      (fun p => UmtCall.deleteMonitorTagCall p.1 mid), ?_, ?_, ?_⟩
  · rw [heq]
  · intro c hc
    obtain ⟨p, _, rfl⟩ := List.mem_map.mp hc
    exact ⟨p.1, rfl⟩
  · intro t htmem hstart hne
    refine List.mem_map.mpr ⟨(monitorTagId t,
      monitorTagName
        (buildTagMap ((get_tags env.authenticated true env.tags3).getD [])
          vtag vid) t), ?_, rfl⟩
    refine List.mem_filterMap.mpr ⟨t, htmem, ?_⟩
    simp only [staleTagPick]
    rw [if_pos ⟨pyStartswith_ne_empty _ _ hstart, hstart, hne⟩]

/-- Witness for C1 at a concrete monitor carrying two stale version tags
(one a dict entry, one a bare id resolved through the tag map) and one
unrelated tag. -/
theorem stale_version_tags_removed_witness :
    wUmt.monitors1 = some [(1, wMonitor)] ∧
    List.lookup 1 [(1, wMonitor)] = some wMonitor ∧
    (get_or_create_tag wUmt.goc ("version" ++ "-" ++ "2.0")).1 =
      some ⟨some 9, "version-2.0"⟩ ∧
    (∃ deletes,
      (update_monitor_tags wUmt 1 "svc" "2.0" "version").2 =
        deletes ++ [UmtCall.addMonitorTagCall 9 1] ∧
      (∀ c ∈ deletes, ∃ tid, c = UmtCall.deleteMonitorTagCall tid 1) ∧
      (∀ t ∈ wMonitor.tags,
        pyStartswith
          (monitorTagName
            (buildTagMap ((get_tags wUmt.authenticated true wUmt.tags3).getD [])
              ⟨some 9, "version-2.0"⟩ 9) t) ("version" ++ "-") = true →
        monitorTagId t ≠ some 9 →
        UmtCall.deleteMonitorTagCall (monitorTagId t) 1 ∈ deletes)) ∧
    (update_monitor_tags wUmt 1 "svc" "2.0" "version").2 =
      [UmtCall.deleteMonitorTagCall (some 3) 1,
        UmtCall.deleteMonitorTagCall (some 4) 1,
        UmtCall.addMonitorTagCall 9 1] :=
  ⟨rfl, rfl, rfl,
    stale_version_tags_removed_before_new_tag_added wUmt 1 "svc" "2.0" "version"
      [(1, wMonitor)] wMonitor ⟨some 9, "version-2.0"⟩ 9 rfl rfl rfl rfl
      (by decide),
    by decide⟩

/-- C9. Once `add_monitor_tag` reports success,
`update_monitor_tags` returns True regardless of the outcome of its
verification step: for every possible result of the verification
`get_monitors` fetch — including a re-fetched monitor whose tag list
does not contain the new tag, and a monitor list that cannot be fetched
at all — the function returns True. -/
theorem update_monitor_tags_true_despite_failed_verification (env : UmtEnv)
    (mid : Int) (mname version tagPfx : String) (ms : List (Int × Monitor))
    (mon : Monitor) (vtag : Tag) (vid : Int)
    (hms : env.monitors1 = some ms)
    (hmon : List.lookup mid ms = some mon)
    (hgoc : (get_or_create_tag env.goc (tagPfx ++ "-" ++ version)).1 = some vtag)
    (hvid : vtag.id = some vid)
    (hvz : vid ≠ 0)
    (hadd : add_monitor_tag env.authenticated env.addMon = true) :
    ∀ m2 : Option (List (Int × Monitor)),
      (update_monitor_tags { env with monitors2 := m2 }
        mid mname version tagPfx).1 = true := by
  intro m2
  have heq := update_monitor_tags_eq { env with monitors2 := m2 } mid mname
    version tagPfx ms mon vtag vid hms hmon hgoc hvid hvz
  rw [heq]
  exact hadd

/-- Witness for C9: the add succeeds, the verification fetch returns a
monitor whose tag list does not contain the new tag, and the result is
still True. -/
theorem update_monitor_tags_true_witness :
    add_monitor_tag wUmt.authenticated wUmt.addMon = true ∧
    (update_monitor_tags { wUmt with monitors2 := some [(1, ⟨"svc", []⟩)] }
      1 "svc" "2.0" "version").1 = true :=
  ⟨rfl,
    update_monitor_tags_true_despite_failed_verification wUmt 1 "svc" "2.0"
      "version" [(1, wMonitor)] wMonitor ⟨some 9, "version-2.0"⟩ 9 rfl rfl rfl
      rfl (by decide) rfl (some [(1, ⟨"svc", []⟩)])⟩

/-- Witness for C3 at a concrete pre-existing tag. -/
theorem existing_tag_reused_witness :
    (⟨some 7, "version-1.0"⟩ : Tag) ∈
      (get_tags true false
        ⟨CacheState.absent,
          TagsOutcome.responded (TagsCbResp.listResp [⟨some 7, "version-1.0"⟩])
            CacheState.absent⟩).getD [] ∧
    ∃ t,
      (get_or_create_tag
        ⟨true,
          ⟨CacheState.absent,
            TagsOutcome.responded (TagsCbResp.listResp [⟨some 7, "version-1.0"⟩])
              CacheState.absent⟩,
          AddTagOutcome.timeout, ⟨CacheState.absent, TagsOutcome.timeout⟩⟩
        "version-1.0").1 = some t ∧
      t ∈ (get_tags true false
        ⟨CacheState.absent,
          TagsOutcome.responded (TagsCbResp.listResp [⟨some 7, "version-1.0"⟩])
            CacheState.absent⟩).getD [] ∧
      t.name = "version-1.0" ∧
      ∀ s, GocCall.addTagCall s ∉
        (get_or_create_tag
          ⟨true,
            ⟨CacheState.absent,
              TagsOutcome.responded (TagsCbResp.listResp [⟨some 7, "version-1.0"⟩])
                CacheState.absent⟩,
            AddTagOutcome.timeout, ⟨CacheState.absent, TagsOutcome.timeout⟩⟩
          "version-1.0").2 :=
  ⟨by decide,
    existing_tag_reused_not_recreated _ "version-1.0" ⟨some 7, "version-1.0"⟩
      (by decide) rfl⟩

/-- When the run reaches the per-service loop, `main` evaluates to the
aggregate exit code paired with the full trace. -/
theorem main_eq_of_loop (env : MainEnv)
    (hcred : ¬(env.apiToken = "" ∧ env.password = ""))
    (hs : (parse_services_config env.servicesConfig env.parsed).isEmpty = false)
    (hc : env.connectOk = true) (hl : env.loginOk = true) :
    main env =
      ((if 0 < ((parse_services_config env.servicesConfig env.parsed).map
          env.serviceResult).count false then 1 else 0),
        [MainEvent.connect, MainEvent.login] ++
          (parse_services_config env.servicesConfig env.parsed).map
            MainEvent.processService) := by
  unfold main
  rw [if_neg hcred]
  simp only [hs, hc, hl, Bool.false_eq_true, Bool.true_eq_false, if_false,
    length_sub_count_true]

/-- In a run that reaches the loop, the exit code is 0 exactly when every
service succeeded. -/
theorem main_exit_zero_iff (env : MainEnv)
    (hcred : ¬(env.apiToken = "" ∧ env.password = ""))
    (hs : (parse_services_config env.servicesConfig env.parsed).isEmpty = false)
    (hc : env.connectOk = true) (hl : env.loginOk = true) :
    (main env).1 = 0 ↔
      ∀ s ∈ parse_services_config env.servicesConfig env.parsed,
        env.serviceResult s = true := by
  have heq := main_eq_of_loop env hcred hs hc hl
  rw [heq]
  by_cases hf : ∃ s ∈ parse_services_config env.servicesConfig env.parsed,
      env.serviceResult s = false
  · have hpos : 0 < ((parse_services_config env.servicesConfig env.parsed).map
        env.serviceResult).count false :=
      List.count_pos_iff.mpr (List.mem_map.mpr hf)
    rw [if_pos hpos]
    constructor
    · intro h; exact absurd h one_ne_zero
    · intro hall
      obtain ⟨s, hsm, hsf⟩ := hf
      rw [hall s hsm] at hsf
      exact absurd hsf (by decide)
  · have hzero : ((parse_services_config env.servicesConfig env.parsed).map
        env.serviceResult).count false = 0 := by
      rw [List.count_eq_zero]
      intro hmem0
      exact hf (List.mem_map.mp hmem0)
    rw [hzero, if_neg (lt_irrefl 0)]
    constructor
    · intro _ s hsm
      cases hb : env.serviceResult s with
      | true => rfl
      | false => exact absurd ⟨s, hsm, hb⟩ hf
    · intro _; rfl

/-- In a run that reaches the loop, the exit code is 1 exactly when some
service failed. -/
theorem main_exit_one_iff (env : MainEnv)
    (hcred : ¬(env.apiToken = "" ∧ env.password = ""))
    (hs : (parse_services_config env.servicesConfig env.parsed).isEmpty = false)
    (hc : env.connectOk = true) (hl : env.loginOk = true) :
    (main env).1 = 1 ↔
      ∃ s ∈ parse_services_config env.servicesConfig env.parsed,
        env.serviceResult s = false := by
  have heq := main_eq_of_loop env hcred hs hc hl
  rw [heq]
  by_cases hf : ∃ s ∈ parse_services_config env.servicesConfig env.parsed,
      env.serviceResult s = false
  · have hpos : 0 < ((parse_services_config env.servicesConfig env.parsed).map
        env.serviceResult).count false :=
      List.count_pos_iff.mpr (List.mem_map.mpr hf)
    rw [if_pos hpos]
    exact ⟨fun _ => hf, fun _ => rfl⟩
  · have hzero : ((parse_services_config env.servicesConfig env.parsed).map
        env.serviceResult).count false = 0 := by
      rw [List.count_eq_zero]
      intro hmem0
      exact hf (List.mem_map.mp hmem0)
    rw [hzero, if_neg (lt_irrefl 0)]
    constructor
    · intro h; exact absurd h.symm one_ne_zero
    · intro hex; exact absurd hex hf

/-- C2. For every run that reaches the per-service loop, `main` exits 0
exactly when `process_service` succeeded for every configured service,
and exits 1 exactly when at least one failed: the exit code is a pure
aggregate of the per-service results. -/
theorem exit_code_reflects_aggregate_results (env : MainEnv)
    (hcred : ¬(env.apiToken = "" ∧ env.password = ""))
    (hs : (parse_services_config env.servicesConfig env.parsed).isEmpty = false)
    (hc : env.connectOk = true) (hl : env.loginOk = true) :
    ((main env).1 = 0 ↔
      ∀ s ∈ parse_services_config env.servicesConfig env.parsed,
        env.serviceResult s = true) ∧
    ((main env).1 = 1 ↔
      ∃ s ∈ parse_services_config env.servicesConfig env.parsed,
        env.serviceResult s = false) :=
  ⟨main_exit_zero_iff env hcred hs hc hl, main_exit_one_iff env hcred hs hc hl⟩

/-- Witness for C2 at a run whose single service succeeds. -/
theorem exit_code_aggregate_witness :
    ¬(wMainOk.apiToken = "" ∧ wMainOk.password = "") ∧
    (parse_services_config wMainOk.servicesConfig wMainOk.parsed).isEmpty =
      false ∧
    ((main wMainOk).1 = 0 ↔
      ∀ s ∈ parse_services_config wMainOk.servicesConfig wMainOk.parsed,
        wMainOk.serviceResult s = true) ∧
    (main wMainOk).1 = 0 :=
  ⟨by decide, rfl,
    (exit_code_reflects_aggregate_results wMainOk (by decide) rfl rfl rfl).1,
    by decide⟩

/-- An empty config string, a JSON parse failure, a non-array JSON value
and an empty array all make `parse_services_config` return the empty
list. -/
theorem parse_services_config_eq_nil (config : String) (parsed : Option Json)
    (h : config = "" ∨ parsed = none ∨
      (∃ j, parsed = some j ∧ ∀ l, j ≠ Json.arr l) ∨
      parsed = some (Json.arr [])) :
    parse_services_config config parsed = [] := by
  rcases h with h | h | ⟨j, hj, hna⟩ | h
  · simp [parse_services_config, h]
  · by_cases hc : config = "" <;> simp [parse_services_config, hc, h]
  · by_cases hc : config = ""
    · simp [parse_services_config, hc]
    · rw [parse_services_config.eq_def, if_neg hc, hj]
      cases j with
      | arr l => exact absurd rfl (hna l)
      | null => rfl
      | bool b => rfl
      | num n => rfl
      | str s => rfl
      | obj fields => rfl
  · by_cases hc : config = "" <;> simp [parse_services_config, hc, h]

/-- C4. For every `SERVICES_CONFIG` value that is empty, is not valid
JSON, is valid JSON but not an array, or is an empty array, `main` exits
with code 1 with an empty trace: no connection is attempted and no
service is processed. -/
theorem malformed_services_config_exits_before_connect (env : MainEnv)
    (h : env.servicesConfig = "" ∨ env.parsed = none ∨
      (∃ j, env.parsed = some j ∧ ∀ l, j ≠ Json.arr l) ∨
      env.parsed = some (Json.arr [])) :
    (main env).1 = 1 ∧ (main env).2 = [] := by
  have hp := parse_services_config_eq_nil env.servicesConfig env.parsed h
  by_cases hcred : env.apiToken = "" ∧ env.password = ""
  · refine ⟨?_, ?_⟩ <;> simp [main, hcred]
  · refine ⟨?_, ?_⟩ <;> simp [main, hcred, hp]

/-- Witness for C4 at a config string that is not valid JSON. -/
theorem malformed_services_config_witness :
    wMainBad.parsed = none ∧
    (main wMainBad).1 = 1 ∧ (main wMainBad).2 = [] :=
  ⟨rfl,
    (malformed_services_config_exits_before_connect wMainBad
      (Or.inr (Or.inl rfl))).1,
    (malformed_services_config_exits_before_connect wMainBad
      (Or.inr (Or.inl rfl))).2⟩

/-- C6. If connecting to the dashboard fails or authentication fails,
`main` exits with code 1 immediately: the trace contains no
`process_service` event. -/
theorem connect_or_login_failure_aborts (env : MainEnv)
    (hcred : ¬(env.apiToken = "" ∧ env.password = ""))
    (hs : (parse_services_config env.servicesConfig env.parsed).isEmpty = false)
    (h : env.connectOk = false ∨ env.loginOk = false) :
    (main env).1 = 1 ∧
    ∀ e ∈ (main env).2, e.isProcessService = false := by
  cases hcon : env.connectOk with
  | false =>
    have hm : main env = (1, [MainEvent.connect]) := by
      unfold main
      rw [if_neg hcred]
      simp [hs, hcon]
    rw [hm]
    refine ⟨rfl, ?_⟩
    intro e he
    simp only [List.mem_singleton] at he
    subst he
    rfl
  | true =>
    have hlog : env.loginOk = false := by
      rcases h with h | h
      · rw [h] at hcon; exact absurd hcon (by decide)
      · exact h
    have hm : main env = (1, [MainEvent.connect, MainEvent.login]) := by
      unfold main
      rw [if_neg hcred]
      simp [hs, hcon, hlog]
    rw [hm]
    refine ⟨rfl, ?_⟩
    intro e he
    simp only [List.mem_cons, List.mem_singleton, List.not_mem_nil] at he
    rcases he with rfl | rfl | he
    · rfl
    · rfl
    · exact absurd he (by simp)

/-- Witness for C6 at a run whose connection attempt fails. -/
theorem connect_failure_witness :
    wMainConnFail.connectOk = false ∧
    (main wMainConnFail).1 = 1 ∧
    ∀ e ∈ (main wMainConnFail).2, e.isProcessService = false :=
  ⟨rfl,
    (connect_or_login_failure_aborts wMainConnFail (by decide) rfl
      (Or.inl rfl)).1,
    (connect_or_login_failure_aborts wMainConnFail (by decide) rfl
      (Or.inl rfl)).2⟩

/-- C5. A failure while processing one service does not abort the run:
in every run that reaches the loop the trace contains a
`process_service` event for every configured service, regardless of the
per-service results, and the exit code is 1 exactly when some service
failed.  Moreover each of the enumerated failure modes makes
`process_service` return false: a version-endpoint request exception, a
monitor name found in no monitor, and (via the final disjunct, whose
second branch shows the result is exactly the `update_monitor_tags`
result) a tag update failure. -/
theorem per_service_failure_does_not_abort_run (env : MainEnv)
    (hcred : ¬(env.apiToken = "" ∧ env.password = ""))
    (hs : (parse_services_config env.servicesConfig env.parsed).isEmpty = false)
    (hc : env.connectOk = true) (hl : env.loginOk = true) :
    ((main env).2 = [MainEvent.connect, MainEvent.login] ++
      (parse_services_config env.servicesConfig env.parsed).map
        MainEvent.processService) ∧
    ((main env).1 = 1 ↔
      ∃ s ∈ parse_services_config env.servicesConfig env.parsed,
        env.serviceResult s = false) ∧
    (∀ (mo : Option (List (Int × Monitor))) (umt : UmtEnv)
      (cfg : ServiceConfig),
      process_service ⟨HttpOutcome.exn, mo, umt⟩ cfg = false) ∧
    (∀ (penv : PsEnv) (cfg : ServiceConfig) (ms : List (Int × Monitor)),
      penv.monitors = some ms → (∀ p ∈ ms, p.2.name ≠ cfg.monitorName) →
      process_service penv cfg = false) ∧
    (∀ (penv : PsEnv) (cfg : ServiceConfig),
      process_service penv cfg = false ∨
      ∃ mid version, mid ≠ 0 ∧
        process_service penv cfg =
          (update_monitor_tags penv.umt mid cfg.monitorName version
            cfg.tagPfx).1) := by
  refine ⟨?_, main_exit_one_iff env hcred hs hc hl, ?_, ?_, ?_⟩
  · rw [main_eq_of_loop env hcred hs hc hl]
  · intro mo umt cfg
    by_cases hg : cfg.monitorName = "" ∨ cfg.versionEndpoint = ""
    · simp [process_service, hg]
    · simp [process_service, hg, get_version]
  · intro penv cfg ms hms hnone
    have hfind : ms.find? (fun p => p.2.name == cfg.monitorName) = none := by
      rw [List.find?_eq_none]
      intro x hx
      simp [hnone x hx]
    by_cases hg : cfg.monitorName = "" ∨ cfg.versionEndpoint = ""
    · simp [process_service, hg]
    · cases hv : get_version penv.http with
      | none => simp [process_service, hg, hv]
      | some v =>
        by_cases hv0 : v = ""
        · simp [process_service, hg, hv, hv0]
        · simp [process_service, hg, hv, hv0, hms, hfind]
  · intro penv cfg
    by_cases hg : cfg.monitorName = "" ∨ cfg.versionEndpoint = ""
    · left; simp [process_service, hg]
    · cases hv : get_version penv.http with
      | none => left; simp [process_service, hg, hv]
      | some v =>
        by_cases hv0 : v = ""
        · left; simp [process_service, hg, hv, hv0]
        · cases hm : penv.monitors with
          | none => left; simp [process_service, hg, hv, hv0, hm]
          | some ms =>
            cases hf : ms.find? (fun p => p.2.name == cfg.monitorName) with
            | none => left; simp [process_service, hg, hv, hv0, hm, hf]
            | some pr =>
              obtain ⟨pmid, pmon⟩ := pr
              by_cases hz : pmid = 0
              · left; simp [process_service, hg, hv, hv0, hm, hf, hz]
              · right
                exact ⟨pmid, v, hz,
                  by simp [process_service, hg, hv, hv0, hm, hf, hz]⟩

/-- Witness for C5 at a run with two services, the first failing: both
are processed and the exit code is 1. -/
theorem per_service_failure_witness :
    ¬(wMainFail.apiToken = "" ∧ wMainFail.password = "") ∧
    ((main wMainFail).2 = [MainEvent.connect, MainEvent.login] ++
      (parse_services_config wMainFail.servicesConfig wMainFail.parsed).map
        MainEvent.processService) ∧
    ((main wMainFail).1 = 1 ↔
      ∃ s ∈ parse_services_config wMainFail.servicesConfig wMainFail.parsed,
        wMainFail.serviceResult s = false) ∧
    (main wMainFail).1 = 1 :=
  ⟨by decide,
    (per_service_failure_does_not_abort_run wMainFail (by decide) rfl rfl
      rfl).1,
    (per_service_failure_does_not_abort_run wMainFail (by decide) rfl rfl
      rfl).2.1,
    by decide⟩

end VersionSync
